import Mathlib

/-!
Shallow embedding of the core of the `mstr-capital-analyzer` repository:
the liquidation-risk engine (`src/models/liquidation_calculator.py`),
the debt parser and aggregator (`src/parsers/debt_parser.py`),
the maturity analyzer (`src/models/maturity_analysis.py`) and the
LTV-heatmap sweep (`src/visualizations/charts.py`).

Python floats are modelled as exact rationals (`ℚ`).  Python's true
division raises `ZeroDivisionError` on a zero divisor; this is modelled
by `pyDiv` returning `Except`.  numpy/pandas division (used in the
aggregator) does not raise on zero; it yields `inf`/`nan`, modelled by
the `nonfinite` constructor of `NpFloat`.
-/

namespace MstrAnalyzer

/-- Python-level runtime errors that the embedded code can raise. -/
inductive PyError where
  | zeroDivision
deriving DecidableEq

/-- Python's true division `a / b`: raises `ZeroDivisionError` when `b = 0`. -/
def pyDiv (a b : ℚ) : Except PyError ℚ :=
  if b = 0 then .error .zeroDivision else .ok (a / b)

/-- State of `LiquidationCalculator` (liquidation_calculator.py, lines 19-32),
after `__init__` has run: `total_debt` and `annual_interest` are already in
dollars (the constructor multiplies its million-denominated arguments by 1e6). -/
structure LiquidationCalculator where
  btc_holdings : ℚ
  btc_price : ℚ
  total_debt : ℚ
  annual_interest : ℚ
deriving DecidableEq

/-- The `__init__` of `LiquidationCalculator` (lines 29-32): debt and interest
arguments are in millions and are scaled to dollars. -/
def LiquidationCalculator.init (btc_holdings btc_price total_debt annual_interest : ℚ) :
    LiquidationCalculator :=
  { btc_holdings := btc_holdings
    btc_price := btc_price
    total_debt := total_debt * 1000000
    annual_interest := annual_interest * 1000000 }

/-- The expression `btc_price or self.btc_price` (line 36).  Python's `or`
returns the right operand whenever the left one is falsy: both `None` and the
number `0` fall back to the stored price. -/
def effectivePrice (override : Option ℚ) (stored : ℚ) : ℚ :=
  match override with
  | none => stored
  | some p => if p = 0 then stored else p

/-- `calculate_btc_value` (lines 34-37). -/
def calculate_btc_value (c : LiquidationCalculator) (btc_price : Option ℚ) : ℚ :=
  c.btc_holdings * effectivePrice btc_price c.btc_price

/-- `calculate_ltv_ratio` (lines 39-48): `self.total_debt / btc_value`,
a Python division that raises `ZeroDivisionError` on a zero collateral value. -/
def calculate_ltv_ratio (c : LiquidationCalculator) (btc_price : Option ℚ) :
    Except PyError ℚ :=
  pyDiv c.total_debt (calculate_btc_value c btc_price)

/-- `calculate_collateral_coverage` (lines 50-59): `1 / self.calculate_ltv_ratio(btc_price)`. -/
def calculate_collateral_coverage (c : LiquidationCalculator) (btc_price : Option ℚ) :
    Except PyError ℚ := do
  let ltv ← calculate_ltv_ratio c btc_price
  pyDiv 1 ltv

/-- `calculate_liquidation_price` (lines 61-78):
`self.total_debt / (self.btc_holdings * target_ltv)`, with no validation of
`target_ltv` whatsoever. -/
def calculate_liquidation_price (c : LiquidationCalculator) (target_ltv : ℚ) :
    Except PyError ℚ :=
  pyDiv c.total_debt (c.btc_holdings * target_ltv)

/-- The dict returned by `calculate_margin_of_safety` (lines 91-98). -/
structure MarginOfSafety where
  current_price : ℚ
  liquidation_price : ℚ
  price_drop_dollars : ℚ
  price_drop_percent : ℚ
  current_ltv : ℚ
  target_ltv : ℚ
deriving DecidableEq

/-- `calculate_margin_of_safety` (lines 80-98). -/
def calculate_margin_of_safety (c : LiquidationCalculator) (target_ltv : ℚ) :
    Except PyError MarginOfSafety := do
  let liq_price ← calculate_liquidation_price c target_ltv
  let price_drop := c.btc_price - liq_price
  let pct_ratio ← pyDiv price_drop c.btc_price
  let current_ltv ← calculate_ltv_ratio c none
  .ok { current_price := c.btc_price
        liquidation_price := liq_price
        price_drop_dollars := price_drop
        price_drop_percent := pct_ratio * 100
        current_ltv := current_ltv
        target_ltv := target_ltv }

/-- Result of a Python float computation that can legitimately be infinite. -/
inductive PyFloatResult where
  | fin (q : ℚ)
  | inf
deriving DecidableEq

/-- `calculate_interest_coverage` (lines 100-111): returns `float('inf')` when
`annual_interest` is zero, otherwise a plain Python division. -/
def calculate_interest_coverage (c : LiquidationCalculator)
    (operating_income_annual : ℚ) : PyFloatResult :=
  if c.annual_interest = 0 then .inf
  else .fin (operating_income_annual * 1000000 / c.annual_interest)

/-- Error raised by Python's `float()` / `strptime` on unconvertible text
(the spec's `MalformedField` condition). -/
inductive FieldError where
  | valueError
deriving DecidableEq

/-- Numeric value of a list of decimal digit characters. -/
def digitsVal (cs : List Char) : Nat :=
  cs.foldl (fun a c => a * 10 + (c.toNat - 48)) 0

/-- Core of Python's `float(str)` on an unsigned decimal numeral: digits with
an optional single decimal point (at least one digit overall).  Exotic float
syntax (exponents, `inf`, `nan`, underscores) is outside the model; the cells
this repository feeds to `float` are plain decimals or junk text. -/
def pyFloatUnsigned (cs : List Char) : Option ℚ :=
  let intPart := cs.takeWhile Char.isDigit
  let rest := cs.dropWhile Char.isDigit
  match rest with
  | [] => if intPart.isEmpty then none else some (digitsVal intPart)
  | '.' :: frac =>
    if frac.all Char.isDigit && (!intPart.isEmpty || !frac.isEmpty) then
      some ((digitsVal intPart : ℚ) + (digitsVal frac : ℚ) / (10 : ℚ) ^ frac.length)
    else none
  | _ => none

/-- Python's `float(str)`: an optional sign, then an unsigned decimal
numeral; anything else raises `ValueError` (modelled as `none`).  The
whitespace stripping of `float` is not modelled: every cell text comes from
`get_text(strip=True)` (debt_parser.py, line 84) and is already stripped. -/
def pyFloat (s : String) : Option ℚ :=
  match s.toList with
  | '-' :: rest => (pyFloatUnsigned rest).map (fun q => -q)
  | '+' :: rest => pyFloatUnsigned rest
  | cs => pyFloatUnsigned cs

/-- `parse_currency` (debt_parser.py, lines 12-18): empty text and the
em-dash sentinel yield `None`; otherwise `re.sub(r'[$,]', '', s)` strips
every dollar sign and comma and the residue goes to `float`, whose
`ValueError` on non-numeric residue is NOT caught - it propagates. -/
def parse_currency (value_str : String) : Except FieldError (Option ℚ) :=
  if value_str = "" ∨ value_str = "—" then .ok none
  else
    let cleaned := String.mk (value_str.toList.filter (fun ch => ch != '$' && ch != ','))
    match pyFloat cleaned with
    | some q => .ok (some q)
    | none => .error .valueError

/-- `parse_percentage` (debt_parser.py, lines 21-27): strips every `%`
(`str.replace('%', '')`) and converts with `float`; its `ValueError` is NOT
caught. -/
def parse_percentage (value_str : String) : Except FieldError (Option ℚ) :=
  if value_str = "" ∨ value_str = "—" then .ok none
  else
    let cleaned := String.mk (value_str.toList.filter (fun ch => ch != '%'))
    match pyFloat cleaned with
    | some q => .ok (some q)
    | none => .error .valueError

/-- A calendar date as produced by `datetime.strptime(s, '%m/%d/%Y')`. -/
structure Date where
  year : Nat
  month : Nat
  day : Nat
deriving DecidableEq

/-- Gregorian leap-year rule, as in Python's `datetime`. -/
def isLeapYear (y : Nat) : Bool :=
  y % 4 == 0 && (y % 100 != 0 || y % 400 == 0)

/-- Days in a month, as validated by Python's `datetime` constructor. -/
def daysInMonth (y m : Nat) : Nat :=
  if m = 2 then (if isLeapYear y then 29 else 28)
  else if m = 4 ∨ m = 6 ∨ m = 9 ∨ m = 11 then 30
  else 31

/-- All-digit text to its numeric value; `none` on empty or non-digit text. -/
def parseDigits (cs : List Char) : Option Nat :=
  if !cs.isEmpty && cs.all Char.isDigit then some (digitsVal cs) else none

/-- Split a character list on the `/` separator (the field splitting that
`strptime`'s `%m/%d/%Y` pattern performs). -/
def splitOnSlash (cs : List Char) : List (List Char) :=
  cs.foldr
    (fun c acc =>
      if c = '/' then [] :: acc
      else
        match acc with
        | g :: gs => (c :: g) :: gs
        | [] => [[c]])
    [[]]

/-- `parse_date` (debt_parser.py, lines 30-37): the empty / em-dash sentinel
yields `None`, and `datetime.strptime(s, '%m/%d/%Y')` is tried with its
`ValueError` CAUGHT and turned into `None` - a malformed date never aborts.
Faithful to CPython's `_strptime`: month of 1-2 digits in 1..12, day of 1-2
digits valid for the month, year of exactly 4 digits (at least 1,
`datetime.MINYEAR`), separated by `/` with nothing left over. -/
def parse_date (date_str : String) : Option Date :=
  if date_str = "" ∨ date_str = "—" then none
  else
    match splitOnSlash date_str.toList with
    | [ms, ds, ys] =>
      match parseDigits ms, parseDigits ds, parseDigits ys with
      | some m, some d, some y =>
        if ms.length ≤ 2 ∧ ds.length ≤ 2 ∧ ys.length = 4 ∧ 1 ≤ m ∧ m ≤ 12 ∧
            1 ≤ y ∧ 1 ≤ d ∧ d ≤ daysInMonth y m then
          some { year := y, month := m, day := d }
        else none
      | _, _, _ => none
    | _ => none

/-- Raw cell texts of one non-totals table row, keyed by the twelve
recognized columns (debt_parser.py, lines 60-90).  Rows are given after
header resolution and totals-row filtering; the claims settled here concern
the typed-conversion stage (lines 93-104). -/
structure RawRow where
  name : String
  issue_date : String
  maturity : String
  put_date : String
  earliest_call_date : String
  price : String
  coupon : String
  notional : String
  market_val : String
  btc_par : String
  ref_price : String
  conversion_price : String
deriving DecidableEq

/-- One typed bond record: a row of the DataFrame returned by
`parse_debt_data` after the column conversions (debt_parser.py, lines 93-104). -/
structure BondRecord where
  name : String
  issue_date : Option Date
  maturity : Option Date
  put_date : Option Date
  earliest_call_date : Option Date
  price : Option ℚ
  coupon : Option ℚ
  notional : Option ℚ
  market_val : Option ℚ
  btc_par : Option ℚ
  ref_price : Option ℚ
  conversion_price : Option ℚ
deriving DecidableEq

/-- Typed conversion of one row: the `df[col] = df[col].apply(...)` stage of
`parse_debt_data` (debt_parser.py, lines 93-104).  pandas applies the
converters column by column across all rows; since every conversion failure
carries the same `ValueError`, applying them row by row yields the same
`Except` outcome. -/
def convertRow (r : RawRow) : Except FieldError BondRecord := do
  let price ← parse_currency r.price
  let coupon ← parse_percentage r.coupon
  let notional ← parse_currency r.notional
  let market_val ← parse_currency r.market_val
  let btc_par ← parse_currency r.btc_par
  let ref_price ← parse_currency r.ref_price
  let conversion_price ← parse_currency r.conversion_price
  .ok { name := r.name
        issue_date := parse_date r.issue_date
        maturity := parse_date r.maturity
        put_date := parse_date r.put_date
        earliest_call_date := parse_date r.earliest_call_date
        price := price
        coupon := coupon
        notional := notional
        market_val := market_val
        btc_par := btc_par
        ref_price := ref_price
        conversion_price := conversion_price }

/-- The conversion stage of `parse_debt_data` over the whole table: a single
uncaught `ValueError` in any currency or percentage cell aborts the parse of
the whole table. -/
def parse_table : List RawRow → Except FieldError (List BondRecord)
  | [] => .ok []
  | r :: rs => do
    let b ← convertRow r
    let bs ← parse_table rs
    .ok (b :: bs)

/-- Result of a numpy float division: finite, or `inf`/`nan` on a zero
divisor - numpy division does not raise an exception. -/
inductive NpFloat where
  | fin (q : ℚ)
  | nonfinite
deriving DecidableEq

/-- numpy float division: `inf`/`nan` (never an exception) on a zero divisor. -/
def npDiv (a b : ℚ) : NpFloat :=
  if b = 0 then .nonfinite else .fin (a / b)

/-- pandas `Series.sum()` with the default `skipna=True`: missing entries
(`NaN`) are skipped. -/
def seriesSum (xs : List (Option ℚ)) : ℚ :=
  (xs.filterMap id).sum

/-- pandas elementwise product of two possibly-missing cells: `NaN`
propagates through multiplication. -/
def cellMul (a b : Option ℚ) : Option ℚ :=
  match a, b with
  | some x, some y => some (x * y)
  | _, _ => none

/-- The `weighted_avg_coupon` entry of `calculate_debt_metrics`
(debt_parser.py, line 122):
`(df['Coupon'] * df['Notional ($M)']).sum() / df['Notional ($M)'].sum()`. -/
def weighted_avg_coupon (records : List BondRecord) : NpFloat :=
  npDiv (seriesSum (records.map (fun r => cellMul r.coupon r.notional)))
    (seriesSum (records.map (fun r => r.notional)))

/-- Coupon and notional of a record when BOTH are present. -/
def bothPresent (r : BondRecord) : Option (ℚ × ℚ) :=
  match r.coupon, r.notional with
  | some c, some n => some (c, n)
  | _, _ => none

/-- Modelled from the spec (section 4.3, the wording of claim C1): numerator
and denominator both range only over records where coupon AND notional are
present, and a zero denominator is a reported `DivideByZero` error. -/
def weighted_avg_coupon_spec (records : List BondRecord) : Except PyError ℚ :=
  let pairs := records.filterMap bothPresent
  let den := (pairs.map (fun p => p.2)).sum
  if den = 0 then .error .zeroDivision
  else .ok ((pairs.map (fun p => p.1 * p.2)).sum / den)

/-- One row of the DataFrame handed to `MaturityAnalyzer` (the parsed debt
table restricted to the columns the analyzer touches).  Dates are pandas
timestamps, modelled as days since an epoch; `none` is `NaT`. -/
structure AnalyzerRow where
  name : String
  maturity : Option ℤ
  notional : Option ℚ
  coupon : Option ℚ
  put_date : Option ℤ
deriving DecidableEq

/-- Sort key of `sort_values('Maturity')` (maturity_analysis.py, line 27):
`NaT` sorts last (pandas default `na_position='last'`), modelled by `⊤`. -/
def maturityKey (r : AnalyzerRow) : WithTop ℤ :=
  match r.maturity with
  | some d => (d : WithTop ℤ)
  | none => ⊤

/-- Row order used when sorting the analyzer's DataFrame by maturity. -/
def maturityLE (a b : AnalyzerRow) : Prop :=
  maturityKey a ≤ maturityKey b

instance : DecidableRel maturityLE :=
  fun a b => inferInstanceAs (Decidable (maturityKey a ≤ maturityKey b))

instance : IsTotal AnalyzerRow maturityLE :=
  ⟨fun a b => le_total (maturityKey a) (maturityKey b)⟩

instance : IsTrans AnalyzerRow maturityLE :=
  ⟨fun _ _ _ h h' => le_trans h h'⟩

/-- The `__init__` of `MaturityAnalyzer` (maturity_analysis.py, lines 18-27):
copies the DataFrame and sorts it by `Maturity`, `NaT` rows last. -/
def analyzerInit (debt_df : List AnalyzerRow) : List AnalyzerRow :=
  debt_df.insertionSort maturityLE

/-- Round half to even (numpy / pandas `.round`). -/
def roundHalfEven (q : ℚ) : ℤ :=
  let f := ⌊q⌋
  let r := q - f
  if r < 1 / 2 then f
  else if 1 / 2 < r then f + 1
  else if f % 2 = 0 then f else f + 1

/-- pandas `.round(2)`: round half to even at two decimals. -/
def round2 (q : ℚ) : ℚ :=
  (roundHalfEven (q * 100) : ℚ) / 100

/-- One row of the DataFrame returned by `get_maturity_schedule`
(maturity_analysis.py, lines 36-47). -/
structure ScheduleEntry where
  name : String
  maturity : Option ℤ
  notional : Option ℚ
  coupon : Option ℚ
  put_date : Option ℤ
  years_to_maturity : Option ℚ
  years_to_put : Option ℚ
deriving DecidableEq

/-- The years columns of `get_maturity_schedule` (lines 40-45):
`((date - now).dt.days / 365.25).round(2)`.  `.dt.days` floors the timedelta
to whole days; `NaT` propagates to `NaN` (`none`). -/
def yearsFrom (now : ℚ) (date : Option ℤ) : Option ℚ :=
  date.map (fun d => round2 ((⌊(d : ℚ) - now⌋ : ℚ) / (365.25 : ℚ)))

/-- `get_maturity_schedule` (maturity_analysis.py, lines 29-47) of an
analyzer built from `debt_df`; the wall clock `pd.Timestamp.now()` is the
injected parameter `now` (same day-based epoch as the dates). -/
def get_maturity_schedule (debt_df : List AnalyzerRow) (now : ℚ) : List ScheduleEntry :=
  (analyzerInit debt_df).map (fun r =>
    { name := r.name
      maturity := r.maturity
      notional := r.notional
      coupon := r.coupon
      put_date := r.put_date
      years_to_maturity := yearsFrom now r.maturity
      years_to_put := yearsFrom now r.put_date })

/-- The dict returned by `calculate_rollover_requirement` (lines 220-228). -/
structure RolloverRequirement where
  total_maturing : ℚ
  number_of_bonds : Nat
  years_analyzed : ℚ
  percentage_of_total : NpFloat
deriving DecidableEq

/-- `calculate_rollover_requirement` (maturity_analysis.py, lines 205-228):
`cutoff_date = datetime.now() + timedelta(days=years_ahead * 365.25)`, rows
with `Maturity <= cutoff_date` (a `NaT` comparison is false, so `NaT` rows
are excluded), notional sums skip missing values, and the percentage is a
numpy division (no exception on a zero total). -/
def calculate_rollover_requirement (debt_df : List AnalyzerRow) (now : ℚ)
    (years_ahead : ℚ) : RolloverRequirement :=
  let schedule := get_maturity_schedule debt_df now
  let cutoff_date := now + years_ahead * (365.25 : ℚ)
  let maturing_soon := schedule.filter (fun e =>
    match e.maturity with
    | some m => decide ((m : ℚ) ≤ cutoff_date)
    | none => false)
  { total_maturing := seriesSum (maturing_soon.map (fun e => e.notional))
    number_of_bonds := maturing_soon.length
    years_analyzed := years_ahead
    percentage_of_total :=
      match npDiv (seriesSum (maturing_soon.map (fun e => e.notional)))
          (seriesSum (schedule.map (fun e => e.notional))) with
      | .fin q => .fin (q * 100)
      | .nonfinite => .nonfinite }

/-- Decidable equality of `Except` results, for evaluating embedded
computations on concrete inputs. -/
instance exceptDecEq {ε α : Type} [DecidableEq ε] [DecidableEq α] :
    DecidableEq (Except ε α) := fun x y =>
  match x, y with
  | .ok a, .ok b =>
    if h : a = b then .isTrue (by subst h; rfl) else .isFalse (fun hh => h (Except.ok.inj hh))
  | .error a, .error b =>
    if h : a = b then .isTrue (by subst h; rfl) else .isFalse (fun hh => h (Except.error.inj hh))
  | .ok _, .error _ => .isFalse (fun hh => Except.noConfusion hh)
  | .error _, .ok _ => .isFalse (fun hh => Except.noConfusion hh)

/-- Sort key of a schedule entry, mirroring `maturityKey` (`NaT` last). -/
def scheduleKey (e : ScheduleEntry) : WithTop ℤ :=
  match e.maturity with
  | some d => (d : WithTop ℤ)
  | none => ⊤

/-- Ordering of schedule entries by maturity date, `NaT` last. -/
def scheduleLE (a b : ScheduleEntry) : Prop :=
  scheduleKey a ≤ scheduleKey b

/-- All currency and percentage cells of a raw row convert without raising
(each is absent or numeric); date cells are unconstrained. -/
def numericCellsOk (r : RawRow) : Prop :=
  (∃ v, parse_currency r.price = .ok v) ∧ (∃ v, parse_percentage r.coupon = .ok v) ∧
  (∃ v, parse_currency r.notional = .ok v) ∧ (∃ v, parse_currency r.market_val = .ok v) ∧
  (∃ v, parse_currency r.btc_par = .ok v) ∧ (∃ v, parse_currency r.ref_price = .ok v) ∧
  (∃ v, parse_currency r.conversion_price = .ok v)

/-- Calculator state of the worked scenario: holdings 447,470, price 100,000,
8,214 million dollars of debt (8,214,000,000 dollars after `__init__` scales). -/
def c3demo : LiquidationCalculator := LiquidationCalculator.init 447470 100000 8214 0

/-- Small calculator state with a positive stored price, for the override
experiments. -/
def c2demo : LiquidationCalculator := LiquidationCalculator.init 1 100 1 0

/-- Small calculator state used to evaluate `calculate_liquidation_price`. -/
def c5demo : LiquidationCalculator := LiquidationCalculator.init 1000 100 1 0

/-- Small valid calculator state (positive holdings, price and debt). -/
def c7demo : LiquidationCalculator := LiquidationCalculator.init 1 100 1 0

/-- Record with coupon 4 and notional 100 (both present). -/
def c1bondA : BondRecord :=
  { name := "A", issue_date := none, maturity := none, put_date := none,
    earliest_call_date := none, price := none, coupon := some 4, notional := some 100,
    market_val := none, btc_par := none, ref_price := none, conversion_price := none }

/-- Record with an absent coupon but a present notional of 100. -/
def c1bondB : BondRecord :=
  { name := "B", issue_date := none, maturity := none, put_date := none,
    earliest_call_date := none, price := none, coupon := none, notional := some 100,
    market_val := none, btc_par := none, ref_price := none, conversion_price := none }

/-- Analyzer row with an absent maturity date. -/
def c6row : AnalyzerRow :=
  { name := "A", maturity := none, notional := some 100, coupon := none, put_date := none }

/-- Two-bond portfolio with maturities at day 100 and day 600. -/
def c9df : List AnalyzerRow :=
  [{ name := "A", maturity := some 100, notional := some 500, coupon := none, put_date := none },
   { name := "B", maturity := some 600, notional := some 300, coupon := none, put_date := none }]

/-- Structurally valid row whose only defect is a non-numeric notional cell. -/
def c4badRow : RawRow :=
  { name := "Bond A", issue_date := "—", maturity := "—", put_date := "—",
    earliest_call_date := "—", price := "—", coupon := "—", notional := "N/A",
    market_val := "—", btc_par := "—", ref_price := "—", conversion_price := "—" }

/-- Row whose only defect is a wrongly formatted maturity date cell. -/
def c4dateRow : RawRow :=
  { name := "Bond B", issue_date := "—", maturity := "31/02/2029", put_date := "—",
    earliest_call_date := "—", price := "—", coupon := "—", notional := "—",
    market_val := "—", btc_par := "—", ref_price := "—", conversion_price := "—" }

/-- Helper: pandas cell product of coupon and notional is the mapped product
of the both-present pair. -/
theorem cellMul_eq_bothPresent (r : BondRecord) :
    cellMul r.coupon r.notional = (bothPresent r).map (fun p => p.1 * p.2) := by
  rcases hc : r.coupon with _ | c <;> rcases hn : r.notional with _ | n <;>
    simp [cellMul, bothPresent, hc, hn]

/-- Helper: a skip-missing sum over mapped optional values is a plain sum
over the values that are present. -/
theorem seriesSum_map_optionMap {α β : Type} (l : List α) (g : α → Option β) (h : β → ℚ) :
    seriesSum (l.map (fun a => (g a).map h)) = ((l.filterMap g).map h).sum := by
  induction l with
  | nil => rfl
  | cons a l ih =>
    rcases ha : g a with _ | b <;> simp [seriesSum, List.filterMap_cons, ha] at ih ⊢ <;>
      simp [ih]

/-- C1, amended.  `weighted_avg_coupon` divides the sum of coupon-times-
notional over records where BOTH are present by the sum of notionals over
ALL records with a present notional (a record with a notional but no coupon
still inflates the denominator), and a zero denominator produces a
non-finite numpy float, not a raised `DivideByZero` error. -/
theorem claim_C1_amended (records : List BondRecord) :
    weighted_avg_coupon records =
      npDiv (((records.filterMap bothPresent).map (fun p => p.1 * p.2)).sum)
        ((records.filterMap (fun r => r.notional)).sum) := by
  unfold weighted_avg_coupon
  congr 1
  · have hmap : records.map (fun r => cellMul r.coupon r.notional) =
        records.map (fun r => (bothPresent r).map (fun p => p.1 * p.2)) :=
      List.map_congr_left (fun r _ => cellMul_eq_bothPresent r)
    rw [hmap, seriesSum_map_optionMap]
  · rw [seriesSum, List.filterMap_map]
    rfl

/-- C1, counterexample.  On a coupon-4/notional-100 record next to a
coupon-absent/notional-100 record, the code returns 400/200 = 2, while the
claimed formula (both sums restricted to records where both fields are
present) yields 400/100 = 4. -/
theorem claim_C1_counterexample :
    weighted_avg_coupon [c1bondA, c1bondB] = .fin 2 ∧
    weighted_avg_coupon_spec [c1bondA, c1bondB] = .ok 4 ∧
    NpFloat.fin (2 : ℚ) ≠ NpFloat.fin (4 : ℚ) := by
  refine ⟨?_, ?_, by norm_num [NpFloat.fin.injEq]⟩
  · norm_num [weighted_avg_coupon, seriesSum, cellMul, npDiv, c1bondA, c1bondB,
      List.filterMap_cons]
  · norm_num [weighted_avg_coupon_spec, bothPresent, c1bondA, c1bondB, List.filterMap_cons]

/-- C2, amended.  `calculate_ltv_ratio` raises `ZeroDivisionError` exactly
when holdings times the EFFECTIVE price is zero, where an explicit override
price of 0 is falsy and silently replaced by the stored price - so an
override of 0 with a positive stored price does not raise. -/
theorem claim_C2_amended (c : LiquidationCalculator) (ov : Option ℚ) :
    calculate_ltv_ratio c ov = .error .zeroDivision ↔
      c.btc_holdings * effectivePrice ov c.btc_price = 0 := by
  unfold calculate_ltv_ratio calculate_btc_value pyDiv
  constructor
  · intro h
    by_contra hne
    simp [hne] at h
  · intro h
    simp [h]

/-- C2, counterexample.  On a state with stored price 100 and holdings 1,
`calculate_ltv_ratio` with an explicit override price of 0 returns the
finite stored-price LTV 10000 instead of raising `DivisionByZero`. -/
theorem claim_C2_counterexample :
    c2demo.btc_price = 100 ∧ 0 < c2demo.btc_price ∧
    calculate_ltv_ratio c2demo (some 0) = .ok 10000 := by
  refine ⟨rfl, by norm_num [c2demo, LiquidationCalculator.init], ?_⟩
  norm_num [c2demo, LiquidationCalculator.init, calculate_ltv_ratio, calculate_btc_value,
    effectivePrice, pyDiv]

/-- C3, amended.  For holdings 447,470, price 100,000, debt 8,214,000,000:
btc_value is 44,747,000,000 and ltv_ratio is about 0.1835 as claimed, but
liquidation_price(0.85) = 8,214,000,000 / (447,470 x 0.85) is about 21,596
(not about 11,473), and margin_of_safety(0.85).price_drop_percent is about
78.40 (not about 88.5). -/
theorem claim_C3_amended :
    calculate_btc_value c3demo none = 44747000000 ∧
    calculate_ltv_ratio c3demo none = .ok (8214/44747) ∧
    ((1835/10000 : ℚ) ≤ 8214/44747 ∧ (8214/44747 : ℚ) ≤ 1836/10000) ∧
    calculate_liquidation_price c3demo (17/20) = .ok (16428000000/760699) ∧
    ((21595 : ℚ) ≤ 16428000000/760699 ∧ (16428000000/760699 : ℚ) ≤ 21596) ∧
    calculate_margin_of_safety c3demo (17/20) =
      .ok { current_price := 100000
            liquidation_price := 16428000000/760699
            price_drop_dollars := 100000 - 16428000000/760699
            price_drop_percent := (100000 - 16428000000/760699) / 100000 * 100
            current_ltv := 8214/44747
            target_ltv := 17/20 } ∧
    ((784/10 : ℚ) ≤ (100000 - 16428000000/760699) / 100000 * 100 ∧
      ((100000 - 16428000000/760699) / 100000 * 100 : ℚ) ≤ 7841/100) := by
  refine ⟨?_, ?_, ⟨by norm_num, by norm_num⟩, ?_, ⟨by norm_num, by norm_num⟩, ?_,
    by norm_num, by norm_num⟩
  · norm_num [c3demo, LiquidationCalculator.init, calculate_btc_value, effectivePrice]
  · norm_num [c3demo, LiquidationCalculator.init, calculate_ltv_ratio, calculate_btc_value,
      effectivePrice, pyDiv]
  · norm_num [c3demo, LiquidationCalculator.init, calculate_liquidation_price, pyDiv]
  · norm_num [c3demo, LiquidationCalculator.init, calculate_margin_of_safety,
      calculate_liquidation_price, calculate_ltv_ratio, calculate_btc_value,
      effectivePrice, pyDiv, Bind.bind, Except.bind]

/-- C3, counterexample.  On the scenario state, btc_value matches the claim,
but liquidation_price(0.85) is 16,428,000,000/760,699, which exceeds 21,000 -
nowhere near the claimed approximately 11,473. -/
theorem claim_C3_counterexample :
    c3demo.total_debt = 8214000000 ∧
    calculate_btc_value c3demo none = 44747000000 ∧
    calculate_liquidation_price c3demo (17/20) = .ok (16428000000/760699) ∧
    (21000 : ℚ) < 16428000000/760699 := by
  refine ⟨by norm_num [c3demo, LiquidationCalculator.init], ?_, ?_, by norm_num⟩
  · norm_num [c3demo, LiquidationCalculator.init, calculate_btc_value, effectivePrice]
  · norm_num [c3demo, LiquidationCalculator.init, calculate_liquidation_price, pyDiv]

/-- C4, amended.  Malformed DATE cells never abort the parse: whenever every
currency and percentage cell of every row converts without raising, the
whole-table parse succeeds and each record's maturity field is whatever
`parse_date` yields - `none` for a wrongly formatted date.  (A non-numeric
currency or percentage cell, by contrast, aborts the parse; see the
counterexample.) -/
theorem claim_C4_amended (rows : List RawRow)
    (h : ∀ r ∈ rows, numericCellsOk r) :
    (parse_table rows).map (List.map (fun b => b.maturity)) =
      .ok (rows.map (fun r => parse_date r.maturity)) := by
  induction rows with
  | nil => rfl
  | cons r rs ih =>
    obtain ⟨⟨v1, e1⟩, ⟨v2, e2⟩, ⟨v3, e3⟩, ⟨v4, e4⟩, ⟨v5, e5⟩, ⟨v6, e6⟩, ⟨v7, e7⟩⟩ :=
      h r (List.mem_cons_self r rs)
    have hrs := ih (fun x hx => h x (List.mem_cons_of_mem r hx))
    rcases htl : parse_table rs with err | recs
    · rw [htl] at hrs
      simp [Except.map] at hrs
    · rw [htl] at hrs
      simp only [Except.map] at hrs
      rw [Except.ok.injEq] at hrs
      simp only [parse_table, convertRow, e1, e2, e3, e4, e5, e6, e7, htl,
        Bind.bind, Except.bind, Except.map, List.map_cons]
      simp [hrs]

/-- C4, witness for the amended claim: a row whose maturity cell reads
31/02/2029 (not a valid date) still parses, with the maturity recorded as
absent. -/
theorem claim_C4_amended_witness :
    (parse_table [c4dateRow]).map (List.map (fun b => b.maturity)) =
      .ok ([c4dateRow].map (fun r => parse_date r.maturity)) :=
  claim_C4_amended [c4dateRow]
    (by
      intro r hr
      rw [List.mem_singleton] at hr
      subst hr
      exact ⟨⟨none, by decide⟩, ⟨none, by decide⟩, ⟨none, by decide⟩, ⟨none, by decide⟩,
        ⟨none, by decide⟩, ⟨none, by decide⟩, ⟨none, by decide⟩⟩)

/-- C4, counterexample.  A structurally valid one-row table whose only
defect is a non-numeric notional cell: the uncaught `float` `ValueError`
aborts the parse of the whole table instead of recording the field as
absent. -/
theorem claim_C4_counterexample :
    parse_currency c4badRow.notional = .error .valueError ∧
    parse_table [c4badRow] = .error .valueError := by
  exact ⟨by decide, by decide⟩

/-- C5, amended.  `calculate_liquidation_price` performs no domain check on
`target_ltv`: at 0 it raises `ZeroDivisionError` (not `InvalidParameter`),
and at a negative value it silently returns the negative price
debt / (holdings x target_ltv). -/
theorem claim_C5_amended (c : LiquidationCalculator) (target_ltv : ℚ) :
    (target_ltv = 0 → calculate_liquidation_price c target_ltv = .error .zeroDivision) ∧
    (target_ltv ≠ 0 → c.btc_holdings ≠ 0 →
      calculate_liquidation_price c target_ltv =
        .ok (c.total_debt / (c.btc_holdings * target_ltv))) := by
  constructor
  · intro h
    simp [calculate_liquidation_price, pyDiv, h]
  · intro ht hh
    have hne : c.btc_holdings * target_ltv ≠ 0 := mul_ne_zero hh ht
    simp [calculate_liquidation_price, pyDiv, hne]

/-- C5, witness for the amended claim, evaluated at target_ltv -1/2. -/
theorem claim_C5_amended_witness :
    calculate_liquidation_price c5demo (-(1/2)) =
      .ok (c5demo.total_debt / (c5demo.btc_holdings * (-(1/2)))) :=
  (claim_C5_amended c5demo (-(1/2))).2 (by norm_num)
    (by norm_num [c5demo, LiquidationCalculator.init])

/-- C5, counterexample.  Called with target_ltv = -1/2 (which is below 0),
`calculate_liquidation_price` returns -2000 instead of failing with
`InvalidParameter`. -/
theorem claim_C5_counterexample :
    calculate_liquidation_price c5demo (-(1/2)) = .ok (-2000) := by
  norm_num [c5demo, LiquidationCalculator.init, calculate_liquidation_price, pyDiv]

/-- C6, amended.  The maturity schedule is sorted ascending by maturity date
with absent-maturity entries placed LAST (pandas `NaT` ordering), and it is
a permutation of the input rows - entries with an absent maturity date are
kept, not excluded. -/
theorem claim_C6_amended (debt_df : List AnalyzerRow) (now : ℚ) :
    List.Sorted scheduleLE (get_maturity_schedule debt_df now) ∧
    List.Perm ((get_maturity_schedule debt_df now).map (fun e => e.maturity))
      (debt_df.map (fun r => r.maturity)) := by
  constructor
  · unfold get_maturity_schedule
    rw [List.Sorted, List.pairwise_map]
    apply List.Pairwise.imp ?_ (List.sorted_insertionSort maturityLE debt_df)
    intro a b hab
    exact hab
  · unfold get_maturity_schedule
    rw [List.map_map]
    have h := (List.perm_insertionSort maturityLE debt_df).map (fun r => r.maturity)
    simpa [Function.comp] using h

/-- C6, counterexample.  A one-row portfolio whose maturity is absent: its
schedule still has one entry (with maturity `none`), so absent-maturity
records are not excluded from the schedule. -/
theorem claim_C6_counterexample :
    (get_maturity_schedule [c6row] 0).length = 1 ∧
    (get_maturity_schedule [c6row] 0).map (fun e => e.maturity) = [none] := by
  constructor <;> rfl

/-- Helper: a skip-missing sum over a cons. -/
theorem seriesSum_cons (x : Option ℚ) (xs : List (Option ℚ)) :
    seriesSum (x :: xs) = x.getD 0 + seriesSum xs := by
  cases x <;> simp [seriesSum, List.filterMap_cons]

/-- Helper: with non-negative (present) notionals, a wider filter gives a
sum at least as large. -/
theorem seriesSum_filter_le (l : List ScheduleEntry) (p q : ScheduleEntry → Bool)
    (hpq : ∀ e, p e = true → q e = true)
    (hnn : ∀ e ∈ l, 0 ≤ e.notional.getD 0) :
    seriesSum ((l.filter p).map (fun e => e.notional)) ≤
      seriesSum ((l.filter q).map (fun e => e.notional)) := by
  induction l with
  | nil => exact le_refl _
  | cons a l ih =>
    have hnnA : 0 ≤ a.notional.getD 0 := hnn a (List.mem_cons_self a l)
    have hnnL : ∀ e ∈ l, 0 ≤ e.notional.getD 0 := fun e he => hnn e (List.mem_cons_of_mem a he)
    by_cases hp : p a = true
    · have hq := hpq a hp
      simp only [List.filter_cons, hp, hq, if_true, List.map_cons, seriesSum_cons]
      exact add_le_add_left (ih hnnL) _
    · by_cases hq : q a = true
      · simp only [List.filter_cons, hp, hq, if_true, if_false, Bool.false_eq_true,
          List.map_cons, seriesSum_cons]
        exact le_add_of_nonneg_of_le hnnA (ih hnnL)
      · simp only [List.filter_cons, hp, hq, Bool.false_eq_true, if_false]
        exact ih hnnL

/-- C9, confirmed.  With non-negative notionals, the rollover requirement's
total_maturing is monotone non-decreasing in years_ahead: the cutoff windows
are nested and rows with absent maturities are excluded from both. -/
theorem claim_C9_monotone (debt_df : List AnalyzerRow) (now y1 y2 : ℚ)
    (_h0 : 0 ≤ y1) (h12 : y1 ≤ y2)
    (hnn : ∀ r ∈ debt_df, 0 ≤ r.notional.getD 0) :
    (calculate_rollover_requirement debt_df now y1).total_maturing ≤
      (calculate_rollover_requirement debt_df now y2).total_maturing := by
  show seriesSum _ ≤ seriesSum _
  apply seriesSum_filter_le
  · intro e he
    rcases hm : e.maturity with _ | m
    · try rw [hm] at he
      simp at he
    · try rw [hm] at he
      try rw [hm]
      have he2 : decide ((m : ℚ) ≤ now + y1 * 365.25) = true := he
      have g2 : (m : ℚ) ≤ now + y2 * 365.25 :=
        le_trans (of_decide_eq_true he2)
          (add_le_add_left (mul_le_mul_of_nonneg_right h12 (by norm_num)) now)
      show decide ((m : ℚ) ≤ now + y2 * 365.25) = true
      exact decide_eq_true g2
  · intro e he
    unfold get_maturity_schedule analyzerInit at he
    rw [List.mem_map] at he
    obtain ⟨r, hr, rfl⟩ := he
    rw [List.mem_insertionSort] at hr
    exact hnn r hr

/-- C9, witness: on the two-bond portfolio the 1-year total is at most the
2-year total. -/
theorem claim_C9_monotone_witness :
    (calculate_rollover_requirement c9df 0 1).total_maturing ≤
      (calculate_rollover_requirement c9df 0 2).total_maturing :=
  claim_C9_monotone c9df 0 1 2 (by norm_num) (by norm_num)
    (by
      intro r hr
      simp only [c9df, List.mem_cons] at hr
      rcases hr with rfl | rfl | h
      · norm_num
      · norm_num
      · exact absurd h (List.not_mem_nil r))

/-- C7, confirmed.  For a valid state (positive holdings and debt) and any
target_ltv in (0, 1], the LTV at the liquidation price is exactly the target
LTV again: the round-trip is exact in rational arithmetic. -/
theorem claim_C7_roundtrip (c : LiquidationCalculator) (target_ltv : ℚ)
    (ht0 : 0 < target_ltv) (_ht1 : target_ltv ≤ 1)
    (hh : 0 < c.btc_holdings) (hd : 0 < c.total_debt) :
    calculate_liquidation_price c target_ltv =
      .ok (c.total_debt / (c.btc_holdings * target_ltv)) ∧
    calculate_ltv_ratio c (some (c.total_debt / (c.btc_holdings * target_ltv))) =
      .ok target_ltv := by
  have hht : c.btc_holdings * target_ltv ≠ 0 := mul_ne_zero hh.ne' ht0.ne'
  have hL : 0 < c.total_debt / (c.btc_holdings * target_ltv) :=
    div_pos hd (mul_pos hh ht0)
  constructor
  · simp [calculate_liquidation_price, pyDiv, hht]
  · unfold calculate_ltv_ratio calculate_btc_value effectivePrice pyDiv
    have hne : c.btc_holdings * (c.total_debt / (c.btc_holdings * target_ltv)) ≠ 0 :=
      mul_ne_zero hh.ne' hL.ne'
    simp only [hL.ne', if_false, hne, if_neg hne]
    congr 1
    field_simp
    ring

/-- C7, witness at holdings 1, debt 1,000,000, target_ltv 1/2. -/
theorem claim_C7_roundtrip_witness :
    calculate_liquidation_price c7demo (1/2) =
      .ok (c7demo.total_debt / (c7demo.btc_holdings * (1/2))) ∧
    calculate_ltv_ratio c7demo (some (c7demo.total_debt / (c7demo.btc_holdings * (1/2)))) =
      .ok (1/2) :=
  claim_C7_roundtrip c7demo (1/2) (by norm_num) (by norm_num)
    (by norm_num [c7demo, LiquidationCalculator.init])
    (by norm_num [c7demo, LiquidationCalculator.init])

/-- C10, confirmed.  An explicit override price of 0 is falsy in Python, so
`calculate_btc_value`, `calculate_ltv_ratio` and
`calculate_collateral_coverage` treat it exactly like no override at all:
the stored price silently takes its place. -/
theorem claim_C10_override_zero (c : LiquidationCalculator) :
    calculate_btc_value c (some 0) = calculate_btc_value c none ∧
    calculate_ltv_ratio c (some 0) = calculate_ltv_ratio c none ∧
    calculate_collateral_coverage c (some 0) = calculate_collateral_coverage c none := by
  simp [calculate_btc_value, calculate_ltv_ratio, calculate_collateral_coverage, effectivePrice]

end MstrAnalyzer
